import Mathlib

/-!
# Verification of the pawn-loan payment allocation & lifecycle engine

Shallow embedding of the loan payment engine of `pawn-repo`
(`backend/app/models/transaction_model.py` and
`backend/app/services/transaction_service.py`), together with theorems
settling the specification's claims about it.

Conventions of the embedding:
* Python `datetime.date` is modelled by `PyDate` (proleptic Gregorian
  calendar, year ≥ 1); `date.toordinal` is `PyDate.toOrdinal`,
  `timedelta(days=k)` addition is `PyDate.addDays`.
* Money (Python `float`) is modelled by `ℚ` with exact arithmetic.
* `date.today()` — an ambient input of several methods — is passed as an
  explicit `today : PyDate` parameter.
* Python `raise ValueError(...)` is modelled by `Except` with a structured
  error type carrying the numeric contents of the message.
* Python truthiness of an optional float (`not self.monthly_interest_fee`)
  is `none` or `some 0`.
-/

namespace PawnRepo

/-! ## Calendar dates (model of Python `datetime.date`) -/

structure PyDate where
  year : Nat
  month : Nat
  day : Nat
deriving DecidableEq, Repr

/-- Gregorian leap-year rule, as used by Python's `calendar.monthrange`. -/
def isLeapYear (y : Nat) : Bool :=
  y % 4 == 0 && (y % 100 != 0 || y % 400 == 0)

/-- `calendar.monthrange(y, m)[1]`: the number of days of month `m` of year `y`. -/
def daysInMonth (y m : Nat) : Nat :=
  if m = 2 then (if isLeapYear y then 29 else 28)
  else if m = 4 ∨ m = 6 ∨ m = 9 ∨ m = 11 then 30
  else 31

/-- Validity of a `PyDate` (the invariant Python's `date` constructor enforces). -/
def PyDate.valid (d : PyDate) : Prop :=
  1 ≤ d.year ∧ 1 ≤ d.month ∧ d.month ≤ 12 ∧ 1 ≤ d.day ∧ d.day ≤ daysInMonth d.year d.month

instance (d : PyDate) : Decidable d.valid := by
  unfold PyDate.valid; infer_instance

/-- Days of the calendar strictly before year `y` (`y ≥ 1`). -/
def daysBeforeYear (y : Nat) : Nat :=
  365 * (y - 1) + (y - 1) / 4 + (y - 1) / 400 - (y - 1) / 100

/-- Days of year `y` strictly before month `m`. -/
def daysBeforeMonth (y m : Nat) : Nat :=
  (List.range (m - 1)).foldl (fun acc i => acc + daysInMonth y (i + 1)) 0

/-- Python's `date.toordinal`: day 1 is 0001-01-01. -/
def PyDate.toOrdinal (d : PyDate) : Nat :=
  daysBeforeYear d.year + daysBeforeMonth d.year d.month + d.day

/-- Inverse of `toOrdinal` (civil-from-days algorithm, March-based years). -/
def PyDate.fromOrdinal (o : Nat) : PyDate :=
  let z := o + 305
  let era := z / 146097
  let doe := z % 146097
  let yoe := (doe - doe / 1460 + doe / 36524 - doe / 146096) / 365
  let doy := doe - (365 * yoe + yoe / 4 - yoe / 100)
  let mp := (5 * doy + 2) / 153
  let dd := doy - (153 * mp + 2) / 5 + 1
  let mm := if mp < 10 then mp + 3 else mp - 9
  ⟨era * 400 + yoe + (if mm ≤ 2 then 1 else 0), mm, dd⟩

/-- `d + timedelta(days = k)`. -/
def PyDate.addDays (d : PyDate) (k : Nat) : PyDate :=
  PyDate.fromOrdinal (d.toOrdinal + k)

/-- Python date comparison `a < b` (lexicographic on year, month, day). -/
def PyDate.blt (a b : PyDate) : Bool :=
  Nat.blt a.year b.year ||
    (a.year == b.year &&
      (Nat.blt a.month b.month || (a.month == b.month && Nat.blt a.day b.day)))

/-- Python date comparison `a <= b`. -/
def PyDate.ble (a b : PyDate) : Bool :=
  a == b || PyDate.blt a b

/-- `(a - b).days` for Python dates. -/
def PyDate.subDays (a b : PyDate) : Int :=
  (a.toOrdinal : Int) - (b.toOrdinal : Int)

/-! ## Loan state (the loan-bearing fields of the `Transaction` document) -/

inductive TransactionType
  | pawn | renewal | partial_payment | redemption | forfeit | sale | late_fee
deriving DecidableEq, Repr

inductive LoanStatus
  | active | overdue | default | redeemed | forfeited
deriving DecidableEq, Repr

/-- The fields of `Transaction` read or written by the payment engine.
`Optional` Python fields are `Option`s. -/
structure Loan where
  transaction_type : TransactionType
  loan_status : Option LoanStatus
  monthly_interest_fee : Option ℚ
  current_balance : Option ℚ
  principal_amount : Option ℚ
  original_due_date : Option PyDate
  current_due_date : Option PyDate
  final_forfeit_date : Option PyDate
  renewals_count : Nat
  last_payment_date : Option PyDate
  months_without_payment : Nat
deriving DecidableEq, Repr

/-- Python truthiness test `not x` for an optional float: `None` and `0.0` are falsy. -/
def qFalsy (x : Option ℚ) : Bool :=
  x == none || x == some 0

namespace Loan

/-- `Transaction.is_loan_active`. -/
def is_loan_active (l : Loan) : Bool :=
  l.transaction_type == TransactionType.pawn && l.loan_status == some LoanStatus.active

/-- `Transaction.is_overdue` (`date.today()` passed explicitly). -/
def is_overdue (l : Loan) (today : PyDate) : Bool :=
  match l.current_due_date with
  | none => false
  | some d => PyDate.blt d today

/-- `Transaction.days_overdue`. -/
def days_overdue (l : Loan) (today : PyDate) : Int :=
  if !l.is_overdue today then 0
  else match l.current_due_date with
    | none => 0
    | some d => today.subDays d

/-- `Transaction.is_within_grace_period`. -/
def is_within_grace_period (l : Loan) (today : PyDate) : Bool :=
  if !l.is_overdue today then true
  else l.days_overdue today ≤ 7

/-- `Transaction.calculate_late_fee` (flat $10 beyond the 7-day grace window). -/
def calculate_late_fee (l : Loan) (today : PyDate) : ℚ :=
  if !l.is_overdue today || l.is_within_grace_period today then 0
  else 10

/-- `Transaction.calculate_amount_owed_at_date`. -/
def calculate_amount_owed_at_date (l : Loan) (target_date : PyDate) : ℚ :=
  if !l.is_loan_active || l.current_due_date == none || qFalsy l.monthly_interest_fee then
    l.current_balance.getD 0
  else
    let base := l.current_balance.getD 0
    match l.current_due_date with
    | none => base
    | some due => if PyDate.ble due target_date then base + l.monthly_interest_fee.getD 0 else base

/-- One iteration of the month-advancing loop of
`Transaction.calculate_next_due_date_from_original`: `replace` to the next
month, falling to the `except ValueError` clamp when the day does not exist
in that month. -/
def stepMonth (d : PyDate) : PyDate :=
  if d.month = 12 then
    ⟨d.year + 1, 1, d.day⟩
  else
    let m := d.month + 1
    let last := daysInMonth d.year m
    if d.day ≤ last then ⟨d.year, m, d.day⟩
    else ⟨d.year, m, min d.day last⟩

/-- The `for _ in range(months_to_add)` loop. -/
def stepMonths (d : PyDate) : Nat → PyDate
  | 0 => d
  | n + 1 => stepMonths (stepMonth d) n

/-- `Transaction.calculate_next_due_date_from_original` (`months_to_add` is a
Python `int`; `range` of a non-positive argument is empty). -/
def calculate_next_due_date_from_original (l : Loan) (today : PyDate)
    (months_to_add : Int) : PyDate :=
  match l.original_due_date with
  | none => today.addDays (30 * months_to_add).toNat
  | some d => stepMonths d months_to_add.toNat

/-- `Transaction.calculate_forfeit_date` (3 whole months from the original due
date, plus 14 days). -/
def calculate_forfeit_date (l : Loan) (today : PyDate) : PyDate :=
  match l.original_due_date with
  | none => today.addDays 105
  | some _ => (l.calculate_next_due_date_from_original today 3).addDays 14

end Loan

/-! ## The payment allocation engine (`Transaction.process_payment_allocation`) -/

/-- The `ValueError`s raised by `process_payment_allocation`, with the numeric
contents of their messages. -/
inductive AllocError
  | invalidLoanState
  | belowMinimum (minimumRequired paid : ℚ)
deriving DecidableEq, Repr

/-- The allocation dictionary returned by `process_payment_allocation`. -/
structure Allocation where
  payment_amount : ℚ
  interest_payment : ℚ
  principal_payment : ℚ
  late_fee_payment : ℚ
  overpayment : ℚ
  payment_type : String
  new_balance : ℚ
  months_extended : Nat
  new_due_date : Option PyDate
deriving DecidableEq, Repr

namespace Loan

/-- `Transaction.process_payment_allocation`.  The source also binds a local
`current_total_owed = self.calculate_amount_owed_at_date(payment_date)` that is
never read afterwards; it is the only use the method makes of `payment_date`. -/
def process_payment_allocation (l : Loan) (payment_amount : ℚ)
    (_payment_date : PyDate) (today : PyDate) : Except AllocError Allocation :=
  match l.monthly_interest_fee, l.current_balance with
  | some fee, some balance =>
    if fee = 0 ∨ balance = 0 then .error .invalidLoanState
    else
      let current_interest_due := fee
      if payment_amount < current_interest_due then
        .error (.belowMinimum current_interest_due payment_amount)
      else
        let late_fee := l.calculate_late_fee today
        let fee_payment := if late_fee > 0 then min payment_amount late_fee else 0
        let rem₁ := payment_amount - fee_payment
        let a₀ : Allocation :=
          { payment_amount := payment_amount
            interest_payment := 0
            principal_payment := 0
            late_fee_payment := fee_payment
            overpayment := 0
            payment_type := ""
            new_balance := balance
            months_extended := 0
            new_due_date := l.current_due_date }
        let a₁ : Allocation :=
          if rem₁ ≥ current_interest_due then
            let rem₂ := rem₁ - current_interest_due
            if rem₂ > 0 then
              if rem₂ ≥ balance then
                { a₀ with interest_payment := current_interest_due
                          months_extended := 1
                          principal_payment := balance
                          new_balance := 0
                          payment_type := "full_redemption"
                          overpayment := rem₂ - balance }
              else
                { a₀ with interest_payment := current_interest_due
                          months_extended := 1
                          principal_payment := rem₂
                          new_balance := balance - rem₂
                          payment_type := "renewal_with_principal" }
            else
              { a₀ with interest_payment := current_interest_due
                        months_extended := 1
                        payment_type := "interest_only_renewal" }
          else a₀
        if a₁.months_extended > 0 then
          let months_since_original : Int :=
            match l.current_due_date, l.original_due_date with
            | some c, some o =>
                ((c.year : Int) - (o.year : Int)) * 12 +
                  ((c.month : Int) - (o.month : Int)) + 1
            | _, _ => 1
          let new_month_number := months_since_original + (a₁.months_extended : Int)
          let nd := l.calculate_next_due_date_from_original today new_month_number
          .ok { a₁ with new_due_date := some nd }
        else
          .ok a₁
  | _, _ => .error .invalidLoanState

end Loan

/-! ## Service layer (`TransactionService`, pure parts; database lookups and
persistence are external collaborators) -/

/-- The `ValueError`s raised by `TransactionService.process_payment` before and
around the allocation call, with the contents of their messages. -/
inductive ServiceError
  | loanNotActive
  | noForfeitDate
  | beyondForfeitDate (payment_date final_forfeit_date : PyDate)
  | allocation (e : AllocError)
deriving DecidableEq, Repr

/-- `TransactionService.create_pawn_loan`: the loan document it constructs
(`pawn_date = date.today()`, `due_date = pawn_date + timedelta(days=30)`,
`forfeit_date = due_date + timedelta(days=105)`). -/
def create_pawn_loan (principal_amount monthly_interest_fee : ℚ)
    (today : PyDate) : Loan :=
  let due_date := today.addDays 30
  let forfeit_date := due_date.addDays 105
  { transaction_type := .pawn
    loan_status := some .active
    monthly_interest_fee := some monthly_interest_fee
    current_balance := some principal_amount
    principal_amount := some principal_amount
    original_due_date := some due_date
    current_due_date := some due_date
    final_forfeit_date := some forfeit_date
    renewals_count := 0
    last_payment_date := none
    months_without_payment := 0 }

/-- The mutation `TransactionService.process_payment` applies to the stored
loan after a successful allocation (lines 113–150 of the service). -/
def apply_allocation (l : Loan) (a : Allocation) (payment_date : PyDate) : Loan :=
  let new_status : LoanStatus :=
    if a.payment_type == "full_redemption" then .redeemed else .active
  { l with current_balance := some a.new_balance
           current_due_date := a.new_due_date
           loan_status := some new_status
           last_payment_date := some payment_date
           renewals_count := l.renewals_count + (if a.months_extended > 0 then 1 else 0)
           months_without_payment := 0 }

/-- `TransactionService.process_payment`: active-loan check, forfeit-window
check, allocation, then the loan update.  On any error no updated loan is
produced (no state mutation). -/
def process_payment (l : Loan) (payment_amount : ℚ) (payment_date : PyDate)
    (today : PyDate) : Except ServiceError (Allocation × Loan) :=
  if !l.is_loan_active then .error .loanNotActive
  else
    match l.final_forfeit_date with
    | none => .error .noForfeitDate
    | some f =>
      if PyDate.blt f payment_date then .error (.beyondForfeitDate payment_date f)
      else
        match l.process_payment_allocation payment_amount payment_date today with
        | .error e => .error (.allocation e)
        | .ok a => .ok (a, apply_allocation l a payment_date)

/-- Modelled from the spec: `Transaction.check_forfeit_eligibility` is called
at `transaction_service.py` lines 241 and 513 and `dashboard_service.py` line
225 (there behind a `hasattr` guard) but is defined nowhere in the
repository's source.  Per spec §4.5, `isForfeitEligible(loan, asOfDate)` is
true iff `loan.currentBalance > 0`, the loan is not already forfeited, and
`asOfDate > loan.finalForfeitDate`. -/
def check_forfeit_eligibility (l : Loan) (today : PyDate) : Bool :=
  decide (0 < l.current_balance.getD 0) &&
    !(l.loan_status == some LoanStatus.forfeited) &&
    (match l.final_forfeit_date with
     | none => false
     | some f => PyDate.blt f today)

/-- `TransactionService.mark_loan_forfeited` (pure part): gated on
`check_forfeit_eligibility`; on success the loan's status becomes
`FORFEITED`. -/
def mark_loan_forfeited (l : Loan) (today : PyDate) : Except Unit Loan :=
  if !check_forfeit_eligibility l today then .error ()
  else .ok { l with loan_status := some LoanStatus.forfeited }

/-- One entry of `TransactionService.get_payment_scenarios`' result
(`LoanScenarioOut`, with its `amount_breakdown` dictionary flattened into
three fields). -/
structure LoanScenario where
  scenario_name : String
  payment_amount : ℚ
  breakdown_interest : ℚ
  breakdown_late_fee : ℚ
  breakdown_principal : ℚ
  resulting_balance : ℚ
  new_due_date : Option PyDate
  is_full_redemption : Bool
deriving DecidableEq, Repr

/-- `TransactionService.get_payment_scenarios` (pure part): each of the three
candidate scenarios dry-runs the allocation engine inside
`try: ... except ValueError: pass`, so a failing dry-run is silently
skipped. -/
def get_payment_scenarios (l : Loan) (payment_date today : PyDate) :
    Except Unit (List LoanScenario) :=
  if !l.is_loan_active then .error ()
  else
    let interest_amount := l.monthly_interest_fee.getD 0
    let late_fee := l.calculate_late_fee today
    let minimum_payment := interest_amount + late_fee
    let s₁ : List LoanScenario :=
      match l.process_payment_allocation minimum_payment payment_date today with
      | .ok a =>
        [{ scenario_name := "Interest Only (Minimum Payment)"
           payment_amount := minimum_payment
           breakdown_interest := a.interest_payment
           breakdown_late_fee := a.late_fee_payment
           breakdown_principal := 0
           resulting_balance := a.new_balance
           new_due_date := a.new_due_date
           is_full_redemption := false }]
      | .error _ => []
    let current_balance := l.current_balance.getD 0
    let half_principal_payment := minimum_payment + current_balance * (1 / 2)
    let s₂ : List LoanScenario :=
      match l.process_payment_allocation half_principal_payment payment_date today with
      | .ok a =>
        [{ scenario_name := "Interest + 50% Principal"
           payment_amount := half_principal_payment
           breakdown_interest := a.interest_payment
           breakdown_late_fee := a.late_fee_payment
           breakdown_principal := a.principal_payment
           resulting_balance := a.new_balance
           new_due_date := a.new_due_date
           is_full_redemption := a.payment_type == "full_redemption" }]
      | .error _ => []
    let full_payment := minimum_payment + current_balance
    let s₃ : List LoanScenario :=
      match l.process_payment_allocation full_payment payment_date today with
      | .ok a =>
        [{ scenario_name := "Full Redemption"
           payment_amount := full_payment
           breakdown_interest := a.interest_payment
           breakdown_late_fee := a.late_fee_payment
           breakdown_principal := a.principal_payment
           resulting_balance := 0
           new_due_date := a.new_due_date
           is_full_redemption := true }]
      | .error _ => []
    .ok (s₁ ++ s₂ ++ s₃)

/-! ## Comparison definitions taken from the spec's words (for refinement
claims), and concrete loan states used in the theorems -/

/-- The whole-month addition as the spec words it: advance month and year
directly, then clamp the day once, to the last valid day of the target
month. -/
def addWholeMonthsSpec (d : PyDate) (n : Nat) : PyDate :=
  let t := d.month - 1 + n
  let y := d.year + t / 12
  let m := t % 12 + 1
  ⟨y, m, min d.day (daysInMonth y m)⟩

/-- The amount-owed projection as the spec words it: balance, plus a month's
interest once the target date reaches the due date, plus any late fee
applicable at the target date. -/
def amountOwedAsOfSpec (l : Loan) (target : PyDate) : ℚ :=
  l.current_balance.getD 0 +
    (match l.current_due_date with
     | none => 0
     | some due => if PyDate.ble due target then l.monthly_interest_fee.getD 0 else 0) +
    l.calculate_late_fee target

/-- An active pawn loan with the given money fields and dates (the shape of
the document `TransactionService.create_pawn_loan` produces). -/
def mkLoan (fee balance : Option ℚ) (orig cur ffd : Option PyDate) : Loan :=
  { transaction_type := .pawn
    loan_status := some .active
    monthly_interest_fee := fee
    current_balance := balance
    principal_amount := balance
    original_due_date := orig
    current_due_date := cur
    final_forfeit_date := ffd
    renewals_count := 0
    last_payment_date := none
    months_without_payment := 0 }

/-- A loan of $500 at $75/month, due 2024-01-15, forfeit cutoff 2024-04-29
(due date + 105 days, as at creation). -/
def loanA : Loan :=
  mkLoan (some 75) (some 500) (some ⟨2024, 1, 15⟩) (some ⟨2024, 1, 15⟩)
    (some ⟨2024, 4, 29⟩)

/-! ## Claims -/

/-- C1.  Money conservation fails in the code.  For `loanA` on 2024-01-25
(ten days past due, so the flat $10 late fee applies) a payment of $80 is
accepted by `process_payment_allocation` — the minimum-payment check compares
the payment against the $75 interest fee before the late fee is deducted —
but the returned allocation sums to $10 (late fee only): after the fee the
remaining $70 no longer covers the interest, the interest/principal steps are
skipped, and the $70 remainder is dropped, so late-fee + interest + principal
+ overpayment = 10 ≠ 80. -/
theorem C1_money_conservation_violated :
    Loan.process_payment_allocation loanA 80 ⟨2024, 1, 15⟩ ⟨2024, 1, 25⟩ =
      .ok { payment_amount := 80, interest_payment := 0, principal_payment := 0,
            late_fee_payment := 10, overpayment := 0, payment_type := "",
            new_balance := 500, months_extended := 0,
            new_due_date := some ⟨2024, 1, 15⟩ } ∧
    (10 : ℚ) + 0 + 0 + 0 ≠ 80 := by
  constructor
  · have hov : Loan.is_overdue loanA ⟨2024, 1, 25⟩ = true := by decide
    have hgr : Loan.is_within_grace_period loanA ⟨2024, 1, 25⟩ = false := by decide
    have hfee : Loan.calculate_late_fee loanA ⟨2024, 1, 25⟩ = 10 := by
      simp [Loan.calculate_late_fee, hov, hgr]
    have hf : loanA.monthly_interest_fee = some 75 := rfl
    have hb : loanA.current_balance = some 500 := rfl
    have hd : loanA.current_due_date = some ⟨2024, 1, 15⟩ := rfl
    simp only [Loan.process_payment_allocation, hf, hb, hd, hfee]
    norm_num
  · norm_num

/-- C2.  Minimum-payment rejection fails in the code for the same input: with
a $10 late fee applicable and a $75 interest fee, the claimed minimum is
$85, yet the $80 payment is not rejected (no `ValueError`), because the
code's only minimum check is `payment_amount < monthly_interest_fee`,
performed before the late fee is deducted.  (The code's own
`get_payment_scenarios` computes `minimum_payment = interest + late fee`,
confirming the intended minimum.) -/
theorem C2_minimum_rejection_violated :
    (Loan.process_payment_allocation loanA 80 ⟨2024, 1, 15⟩ ⟨2024, 1, 25⟩).isOk
      = true ∧
    Loan.calculate_late_fee loanA ⟨2024, 1, 25⟩ = 10 ∧
    (80 : ℚ) < 75 + 10 := by
  have hov : Loan.is_overdue loanA ⟨2024, 1, 25⟩ = true := by decide
  have hgr : Loan.is_within_grace_period loanA ⟨2024, 1, 25⟩ = false := by decide
  have hfee : Loan.calculate_late_fee loanA ⟨2024, 1, 25⟩ = 10 := by
    simp [Loan.calculate_late_fee, hov, hgr]
  refine ⟨?_, hfee, by norm_num⟩
  have hf : loanA.monthly_interest_fee = some 75 := rfl
  have hb : loanA.current_balance = some 500 := rfl
  have hd : loanA.current_due_date = some ⟨2024, 1, 15⟩ := rfl
  simp only [Loan.process_payment_allocation, hf, hb, hd, hfee]
  norm_num [Except.isOk, Except.toBool]

/-- A loan of $500 at $75/month, originally due 2024-01-15, already renewed
once so currently due 2024-02-15. -/
def loanB : Loan :=
  mkLoan (some 75) (some 500) (some ⟨2024, 1, 15⟩) (some ⟨2024, 2, 15⟩)
    (some ⟨2024, 4, 29⟩)

/-- The allocation the engine returns for an interest-only $75 payment on
`loanB`. -/
def allocB : Allocation :=
  { payment_amount := 75, interest_payment := 75, principal_payment := 0,
    late_fee_payment := 0, overpayment := 0,
    payment_type := "interest_only_renewal", new_balance := 500,
    months_extended := 1, new_due_date := some ⟨2024, 4, 15⟩ }

/-- The loan of the spec's end-to-end scenario 2: $500 principal, $75 monthly
fee, pawned 2024-01-09, due 2024-02-08. -/
def scenLoan : Loan := create_pawn_loan 500 75 ⟨2024, 1, 9⟩

/-- C3, counterexample.  The claim's formula takes `monthsSinceOriginal` as
the whole months elapsed from the original to the current due date, minimum
1.  For `loanB` (original due 2024-01-15, current due 2024-02-15, one month
elapsed) an interest-only renewal would give 2024-03-15 under the claim, but
the code computes `months_since_original = elapsed + 1 = 2` and returns
2024-04-15. -/
theorem C3_anchoring_counterexample :
    (Loan.process_payment_allocation loanB 75 ⟨2024, 2, 15⟩ ⟨2024, 2, 15⟩).map
        (fun a => a.new_due_date) = .ok (some ⟨2024, 4, 15⟩) ∧
    Loan.stepMonths ⟨2024, 1, 15⟩ (1 + 1) = ⟨2024, 3, 15⟩ ∧
    some (⟨2024, 4, 15⟩ : PyDate) ≠ some ⟨2024, 3, 15⟩ := by
  refine ⟨?_, by decide, by decide⟩
  have hov : Loan.is_overdue loanB ⟨2024, 2, 15⟩ = false := by decide
  have hfee : Loan.calculate_late_fee loanB ⟨2024, 2, 15⟩ = 0 := by
    simp [Loan.calculate_late_fee, hov]
  have hf : loanB.monthly_interest_fee = some 75 := rfl
  have hb : loanB.current_balance = some 500 := rfl
  have hd : loanB.current_due_date = some ⟨2024, 2, 15⟩ := rfl
  have ho : loanB.original_due_date = some ⟨2024, 1, 15⟩ := rfl
  have hnext :
      loanB.calculate_next_due_date_from_original ⟨2024, 2, 15⟩ 3 = ⟨2024, 4, 15⟩ := by
    decide
  simp only [Loan.process_payment_allocation, hf, hb, hd, ho, hfee]
  norm_num [hnext, Except.map]

/-- C3 (amended).  For every successful allocation with `monthsExtended = 1`,
the new due date is anchored to the original due date, but with
`monthsSinceOriginal` computed as the calendar-month difference between the
current and original due dates **plus one** (not `max(elapsed, 1)`): new due
date = `calculate_next_due_date_from_original (Δyears*12 + Δmonths + 2)`.
In particular the spec's end-to-end scenario 2 holds: a first interest-only
payment of exactly the $75 monthly fee on the due date leaves the balance at
$500, increments `renewals_count` to 1, and moves the due date to the
original due date plus two months. -/
theorem C3_anchoring_amended
    (l : Loan) (amt : ℚ) (pd today : PyDate) (a : Allocation) (o c : PyDate)
    (ho : l.original_due_date = some o) (hc : l.current_due_date = some c)
    (hok : l.process_payment_allocation amt pd today = .ok a)
    (hm : a.months_extended = 1) :
    a.new_due_date = some (l.calculate_next_due_date_from_original today
      (((c.year : Int) - (o.year : Int)) * 12 +
        ((c.month : Int) - (o.month : Int)) + 2)) ∧
    (process_payment scenLoan 75 ⟨2024, 2, 8⟩ ⟨2024, 2, 8⟩).map
        (fun r => (r.2.current_balance, r.2.renewals_count, r.2.current_due_date))
      = .ok (some 500, 1, some (Loan.stepMonths (PyDate.addDays ⟨2024, 1, 9⟩ 30) 2)) := by
  constructor
  · cases hf : l.monthly_interest_fee with
    | none =>
      simp only [Loan.process_payment_allocation, hf] at hok
      exact Except.noConfusion hok
    | some f =>
      cases hb : l.current_balance with
      | none =>
        simp only [Loan.process_payment_allocation, hf, hb] at hok
        exact Except.noConfusion hok
      | some b =>
        simp only [Loan.process_payment_allocation, hf, hb, hc, ho] at hok
        split_ifs at hok
        all_goals (injection hok with h; subst h; simp_all)
        all_goals (congr 1; omega)
  · have hactive : scenLoan.is_loan_active = true := by decide
    have hffd : scenLoan.final_forfeit_date = some ⟨2024, 5, 23⟩ := by decide
    have hblt : PyDate.blt ⟨2024, 5, 23⟩ ⟨2024, 2, 8⟩ = false := by decide
    have hov : Loan.is_overdue scenLoan ⟨2024, 2, 8⟩ = false := by decide
    have hfee : Loan.calculate_late_fee scenLoan ⟨2024, 2, 8⟩ = 0 := by
      simp [Loan.calculate_late_fee, hov]
    have hf : scenLoan.monthly_interest_fee = some 75 := rfl
    have hb : scenLoan.current_balance = some 500 := rfl
    have hd : scenLoan.current_due_date = some ⟨2024, 2, 8⟩ := by decide
    have ho : scenLoan.original_due_date = some ⟨2024, 2, 8⟩ := by decide
    have hnext :
        scenLoan.calculate_next_due_date_from_original ⟨2024, 2, 8⟩ 2 = ⟨2024, 4, 8⟩ := by
      decide
    have halloc : scenLoan.process_payment_allocation 75 ⟨2024, 2, 8⟩ ⟨2024, 2, 8⟩ =
        .ok { payment_amount := 75, interest_payment := 75, principal_payment := 0,
              late_fee_payment := 0, overpayment := 0,
              payment_type := "interest_only_renewal", new_balance := 500,
              months_extended := 1, new_due_date := some ⟨2024, 4, 8⟩ } := by
      simp only [Loan.process_payment_allocation, hf, hb, hd, ho, hfee]
      norm_num [hnext]
    have hstep : Loan.stepMonths (PyDate.addDays ⟨2024, 1, 9⟩ 30) 2 = ⟨2024, 4, 8⟩ := by
      decide
    have hren : scenLoan.renewals_count = 0 := rfl
    simp only [process_payment, hactive, hffd, hblt, halloc, apply_allocation, hstep, hren]
    norm_num [Except.map]

/-- C3, witness: the amended theorem applied to `loanB` and the concrete
allocation `allocB` of its interest-only renewal. -/
theorem C3_anchoring_witness :
    allocB.new_due_date = some (loanB.calculate_next_due_date_from_original ⟨2024, 2, 15⟩
      ((((⟨2024, 2, 15⟩ : PyDate).year : Int) - ((⟨2024, 1, 15⟩ : PyDate).year : Int)) * 12 +
        (((⟨2024, 2, 15⟩ : PyDate).month : Int) - ((⟨2024, 1, 15⟩ : PyDate).month : Int)) + 2)) := by
  have hov : Loan.is_overdue loanB ⟨2024, 2, 15⟩ = false := by decide
  have hfee : Loan.calculate_late_fee loanB ⟨2024, 2, 15⟩ = 0 := by
    simp [Loan.calculate_late_fee, hov]
  have hf : loanB.monthly_interest_fee = some 75 := rfl
  have hb : loanB.current_balance = some 500 := rfl
  have hd : loanB.current_due_date = some ⟨2024, 2, 15⟩ := rfl
  have ho : loanB.original_due_date = some ⟨2024, 1, 15⟩ := rfl
  have hnext :
      loanB.calculate_next_due_date_from_original ⟨2024, 2, 15⟩ 3 = ⟨2024, 4, 15⟩ := by
    decide
  have hok : loanB.process_payment_allocation 75 ⟨2024, 2, 15⟩ ⟨2024, 2, 15⟩ = .ok allocB := by
    simp only [Loan.process_payment_allocation, hf, hb, hd, ho, hfee]
    norm_num [hnext, allocB]
  exact (C3_anchoring_amended loanB 75 ⟨2024, 2, 15⟩ ⟨2024, 2, 15⟩ allocB
    ⟨2024, 1, 15⟩ ⟨2024, 2, 15⟩ rfl rfl hok rfl).1

/-- C4, counterexample.  For a loan pawned 2022-12-02 (due 2023-01-01) the
stored `final_forfeit_date` is due + 105 days = 2023-04-16, while the
3-calendar-months-plus-14-days formula — the code's own (never called)
`calculate_forfeit_date` — gives 2023-04-15. -/
theorem C4_forfeit_date_counterexample :
    (create_pawn_loan 100 15 ⟨2022, 12, 2⟩).final_forfeit_date = some ⟨2023, 4, 16⟩ ∧
    Loan.calculate_forfeit_date (create_pawn_loan 100 15 ⟨2022, 12, 2⟩) ⟨2022, 12, 2⟩
      = ⟨2023, 4, 15⟩ ∧
    some (⟨2023, 4, 16⟩ : PyDate) ≠ some ⟨2023, 4, 15⟩ := by
  refine ⟨by decide, by decide, by decide⟩

/-- C4 (amended).  `create_pawn_loan` sets `final_forfeit_date` to the
original due date plus a flat 105 days (a day-count approximation of
"3 months + 2 week grace", not the calendar-month formula of
`calculate_forfeit_date`, which is never called at creation); the date is
set once at creation, and payment processing never modifies it. -/
theorem C4_forfeit_date_amended
    (principal fee : ℚ) (pawnDate : PyDate) (l : Loan) (amt : ℚ)
    (pd today : PyDate) (r : Allocation × Loan)
    (hok : process_payment l amt pd today = .ok r) :
    (create_pawn_loan principal fee pawnDate).original_due_date
      = some (pawnDate.addDays 30) ∧
    (create_pawn_loan principal fee pawnDate).final_forfeit_date
      = some ((pawnDate.addDays 30).addDays 105) ∧
    r.2.final_forfeit_date = l.final_forfeit_date := by
  refine ⟨rfl, rfl, ?_⟩
  unfold process_payment at hok
  split_ifs at hok
  cases hffd : l.final_forfeit_date with
  | none =>
    simp only [hffd] at hok
    exact Except.noConfusion hok
  | some f =>
    simp only [hffd] at hok
    split_ifs at hok
    cases halloc : l.process_payment_allocation amt pd today with
    | error e =>
      simp only [halloc] at hok
      exact Except.noConfusion hok
    | ok a =>
      simp only [halloc] at hok
      injection hok with h
      subst h
      simp [apply_allocation, hffd]

/-- The allocation and updated loan that an interest-only $75 renewal of
`scenLoan` produces. -/
def scenAlloc : Allocation :=
  { payment_amount := 75, interest_payment := 75, principal_payment := 0,
    late_fee_payment := 0, overpayment := 0,
    payment_type := "interest_only_renewal", new_balance := 500,
    months_extended := 1, new_due_date := some ⟨2024, 4, 8⟩ }

def scenLoanRenewed : Allocation × Loan :=
  (scenAlloc, apply_allocation scenLoan scenAlloc ⟨2024, 2, 8⟩)

theorem scenLoan_process_eq :
    process_payment scenLoan 75 ⟨2024, 2, 8⟩ ⟨2024, 2, 8⟩ = .ok scenLoanRenewed := by
  have hactive : scenLoan.is_loan_active = true := by decide
  have hffd : scenLoan.final_forfeit_date = some ⟨2024, 5, 23⟩ := by decide
  have hblt : PyDate.blt ⟨2024, 5, 23⟩ ⟨2024, 2, 8⟩ = false := by decide
  have hov : Loan.is_overdue scenLoan ⟨2024, 2, 8⟩ = false := by decide
  have hfee : Loan.calculate_late_fee scenLoan ⟨2024, 2, 8⟩ = 0 := by
    simp [Loan.calculate_late_fee, hov]
  have hf : scenLoan.monthly_interest_fee = some 75 := rfl
  have hb : scenLoan.current_balance = some 500 := rfl
  have hd : scenLoan.current_due_date = some ⟨2024, 2, 8⟩ := by decide
  have ho : scenLoan.original_due_date = some ⟨2024, 2, 8⟩ := by decide
  have hnext :
      scenLoan.calculate_next_due_date_from_original ⟨2024, 2, 8⟩ 2 = ⟨2024, 4, 8⟩ := by
    decide
  have halloc : scenLoan.process_payment_allocation 75 ⟨2024, 2, 8⟩ ⟨2024, 2, 8⟩ =
      .ok scenAlloc := by
    simp only [Loan.process_payment_allocation, hf, hb, hd, ho, hfee]
    norm_num [hnext, scenAlloc]
  simp only [process_payment, hactive, hffd, hblt, halloc, scenLoanRenewed]
  norm_num

/-- C4, witness: the amended theorem applied to the scenario loan and its
interest-only renewal. -/
theorem C4_forfeit_date_witness :
    (create_pawn_loan 500 75 ⟨2024, 1, 9⟩).original_due_date
      = some (PyDate.addDays ⟨2024, 1, 9⟩ 30) ∧
    (create_pawn_loan 500 75 ⟨2024, 1, 9⟩).final_forfeit_date
      = some ((PyDate.addDays ⟨2024, 1, 9⟩ 30).addDays 105) ∧
    (scenLoanRenewed).2.final_forfeit_date = scenLoan.final_forfeit_date := by
  exact C4_forfeit_date_amended 500 75 ⟨2024, 1, 9⟩ scenLoan 75 ⟨2024, 2, 8⟩ ⟨2024, 2, 8⟩
    scenLoanRenewed scenLoan_process_eq

/-- An eligible-for-forfeiture loan: positive balance, active, forfeit cutoff
2024-04-29 already passed. -/
def loanF : Loan :=
  mkLoan (some 75) (some 500) (some ⟨2024, 1, 15⟩) (some ⟨2024, 1, 15⟩)
    (some ⟨2024, 4, 29⟩)

/-- C5.  The forfeiture-eligibility check (modelled from the spec, since
`check_forfeit_eligibility` is called but never defined in the source) is
true iff the balance is positive, the loan is not already forfeited, and the
as-of date is strictly after `final_forfeit_date`; and the forfeiture action
`mark_loan_forfeited` succeeds exactly when the check is true. -/
theorem C5_forfeit_eligibility (l : Loan) (today : PyDate) :
    (check_forfeit_eligibility l today = true ↔
      0 < l.current_balance.getD 0 ∧
      l.loan_status ≠ some LoanStatus.forfeited ∧
      ∃ f, l.final_forfeit_date = some f ∧ PyDate.blt f today = true) ∧
    ((mark_loan_forfeited l today).isOk = true ↔
      check_forfeit_eligibility l today = true) := by
  constructor
  · unfold check_forfeit_eligibility
    cases hffd : l.final_forfeit_date with
    | none => simp
    | some f => simp [and_assoc]
  · unfold mark_loan_forfeited
    by_cases h : check_forfeit_eligibility l today = true
    · simp [h, Except.isOk, Except.toBool]
    · simp [h, Except.isOk, Except.toBool]

/-- C5, witness: `loanF` one day after its forfeit cutoff is eligible, and
the forfeiture action succeeds on it. -/
theorem C5_forfeit_eligibility_witness :
    (mark_loan_forfeited loanF ⟨2024, 4, 30⟩).isOk = true := by
  rw [(C5_forfeit_eligibility loanF ⟨2024, 4, 30⟩).2]
  have hblt : PyDate.blt ⟨2024, 4, 29⟩ ⟨2024, 4, 30⟩ = true := by decide
  simp [check_forfeit_eligibility, loanF, mkLoan, hblt]

/-! ### Calendar lemmas for the whole-month addition (C6) -/

theorem daysInMonth_ge_28 (y m : Nat) : 28 ≤ daysInMonth y m := by
  unfold daysInMonth
  split_ifs <;> norm_num

theorem stepMonth_index (d : PyDate) :
    (Loan.stepMonth d).year * 12 + (Loan.stepMonth d).month
      = d.year * 12 + d.month + 1 := by
  simp only [Loan.stepMonth]
  split_ifs with h12 hle
  · show (d.year + 1) * 12 + 1 = d.year * 12 + d.month + 1
    omega
  · show d.year * 12 + (d.month + 1) = d.year * 12 + d.month + 1
    omega
  · show d.year * 12 + (d.month + 1) = d.year * 12 + d.month + 1
    omega

theorem stepMonth_day_le (d : PyDate) : (Loan.stepMonth d).day ≤ d.day := by
  simp only [Loan.stepMonth]
  split_ifs with h12 hle
  · exact le_refl _
  · exact le_refl _
  · show min d.day (daysInMonth d.year (d.month + 1)) ≤ d.day
    omega

theorem stepMonth_day_eq_of_le_28 (d : PyDate) (h : d.day ≤ 28) :
    (Loan.stepMonth d).day = d.day := by
  simp only [Loan.stepMonth]
  split_ifs with h12 hle
  · rfl
  · rfl
  · have h28 := daysInMonth_ge_28 d.year (d.month + 1)
    show min d.day (daysInMonth d.year (d.month + 1)) = d.day
    omega

theorem stepMonth_valid (d : PyDate) (h : d.valid) : (Loan.stepMonth d).valid := by
  obtain ⟨hy, hm1, hm2, hd1, hd2⟩ := h
  have h28 := daysInMonth_ge_28 d.year (d.month + 1)
  simp only [Loan.stepMonth]
  split_ifs with h12 hle
  · have h31 : daysInMonth d.year 12 = 31 := by norm_num [daysInMonth]
    have h31b : daysInMonth (d.year + 1) 1 = 31 := by norm_num [daysInMonth]
    rw [h12] at hd2
    rw [h31] at hd2
    exact ⟨Nat.le_succ_of_le hy, (by decide : (1 : Nat) ≤ 1), (by decide : (1 : Nat) ≤ 12),
      hd1, by show d.day ≤ daysInMonth (d.year + 1) 1; rw [h31b]; omega⟩
  · exact ⟨hy, by show (1 : Nat) ≤ d.month + 1; omega, by show d.month + 1 ≤ 12; omega,
      hd1, hle⟩
  · exact ⟨hy, by show (1 : Nat) ≤ d.month + 1; omega, by show d.month + 1 ≤ 12; omega,
      by show 1 ≤ min d.day (daysInMonth d.year (d.month + 1)); omega,
      by show min d.day (daysInMonth d.year (d.month + 1)) ≤ daysInMonth d.year (d.month + 1); omega⟩

theorem stepMonth_eq_spec (d : PyDate) (h : d.valid) :
    Loan.stepMonth d = addWholeMonthsSpec d 1 := by
  obtain ⟨y, m, dd⟩ := d
  obtain ⟨hy0, hm10, hm20, hd10, hd20⟩ := h
  have hy : 1 ≤ y := hy0
  have hm1 : 1 ≤ m := hm10
  have hm2 : m ≤ 12 := hm20
  have hd1 : 1 ≤ dd := hd10
  have hd2 : dd ≤ daysInMonth y m := hd20
  clear hy0 hm10 hm20 hd10 hd20
  simp only [Loan.stepMonth, addWholeMonthsSpec]
  by_cases h12 : m = 12
  · subst h12
    have h31 : daysInMonth y 12 = 31 := by norm_num [daysInMonth]
    have h31b : daysInMonth (y + 1) 1 = 31 := by norm_num [daysInMonth]
    rw [h31] at hd2
    norm_num [h31b]
    omega
  · have hlt : m < 12 := by omega
    have ht : m - 1 + 1 = m := by omega
    have hdiv : m / 12 = 0 := Nat.div_eq_of_lt hlt
    have hmod : m % 12 = m := Nat.mod_eq_of_lt hlt
    rw [if_neg h12, ht, hdiv, hmod]
    split_ifs with hle
    · simp [PyDate.mk.injEq]
      omega
    · simp [PyDate.mk.injEq]

theorem stepMonths_props (d : PyDate) (n : Nat) (h : d.valid) :
    (Loan.stepMonths d n).valid ∧
    (Loan.stepMonths d n).year * 12 + (Loan.stepMonths d n).month
      = d.year * 12 + d.month + n ∧
    (Loan.stepMonths d n).day ≤ d.day ∧
    (d.day ≤ 28 → (Loan.stepMonths d n).day = d.day) := by
  induction n generalizing d with
  | zero => exact ⟨h, by simp [Loan.stepMonths], le_refl _, fun _ => rfl⟩
  | succ n ih =>
    have hv := stepMonth_valid d h
    obtain ⟨v, idx, dle, deq⟩ := ih (Loan.stepMonth d) hv
    refine ⟨v, ?_, le_trans dle (stepMonth_day_le d), ?_⟩
    · show (Loan.stepMonths (Loan.stepMonth d) n).year * 12 +
        (Loan.stepMonths (Loan.stepMonth d) n).month = d.year * 12 + d.month + (n + 1)
      rw [idx, stepMonth_index]
      omega
    · intro h28
      show (Loan.stepMonths (Loan.stepMonth d) n).day = d.day
      rw [deq (by rw [stepMonth_day_eq_of_le_28 d h28]; exact h28),
        stepMonth_day_eq_of_le_28 d h28]

/-- C6, counterexample.  The code clamps the day at every intermediate month,
not once against the target month: stepping 1931-01-31 (here 2023-01-31) two
months forward passes through Feb 28 and lands on Mar 28, while the claim's
single target-month clamp gives Mar 31. -/
theorem C6_month_addition_counterexample :
    Loan.stepMonths ⟨2023, 1, 31⟩ 2 = ⟨2023, 3, 28⟩ ∧
    addWholeMonthsSpec ⟨2023, 1, 31⟩ 2 = ⟨2023, 3, 31⟩ ∧
    (⟨2023, 3, 28⟩ : PyDate) ≠ ⟨2023, 3, 31⟩ := by
  refine ⟨by decide, by decide, by decide⟩

/-- C6 (amended).  The month-adding loop advances one calendar month at a
time, clamping the day at each step to the last valid day of that next month
(so the day can only decrease, and cumulative clamping applies across short
intermediate months).  For every valid date: the result is a valid date; the
linear month count (year*12 + month) advances by exactly n, which covers the
December → January rollover; the day never grows, and is preserved exactly
whenever it is ≤ 28; and for a single month (n = 1) the result coincides
with the spec's direct-add-and-clamp-once formula — in particular
Jan 31 + 1 month = Feb 28 (Feb 29 in a leap year). -/
theorem C6_month_addition_amended (d : PyDate) (n : Nat) (h : d.valid) :
    (Loan.stepMonths d n).valid ∧
    (Loan.stepMonths d n).year * 12 + (Loan.stepMonths d n).month
      = d.year * 12 + d.month + n ∧
    (Loan.stepMonths d n).day ≤ d.day ∧
    (d.day ≤ 28 → (Loan.stepMonths d n).day = d.day) ∧
    Loan.stepMonths d 1 = addWholeMonthsSpec d 1 := by
  obtain ⟨v, idx, dle, deq⟩ := stepMonths_props d n h
  exact ⟨v, idx, dle, deq, stepMonth_eq_spec d h⟩

/-- C6, witness: the amended theorem applied at 2024-01-31 with n = 2. -/
theorem C6_month_addition_witness :
    (Loan.stepMonths ⟨2024, 1, 31⟩ 2).valid ∧
    (Loan.stepMonths ⟨2024, 1, 31⟩ 2).year * 12 + (Loan.stepMonths ⟨2024, 1, 31⟩ 2).month
      = (⟨2024, 1, 31⟩ : PyDate).year * 12 + (⟨2024, 1, 31⟩ : PyDate).month + 2 ∧
    (Loan.stepMonths ⟨2024, 1, 31⟩ 2).day ≤ (⟨2024, 1, 31⟩ : PyDate).day ∧
    ((⟨2024, 1, 31⟩ : PyDate).day ≤ 28 → (Loan.stepMonths ⟨2024, 1, 31⟩ 2).day
      = (⟨2024, 1, 31⟩ : PyDate).day) ∧
    Loan.stepMonths ⟨2024, 1, 31⟩ 1 = addWholeMonthsSpec ⟨2024, 1, 31⟩ 1 :=
  C6_month_addition_amended ⟨2024, 1, 31⟩ 2 (by decide)

/-- C7, counterexample.  The allocation is not a pure function of
`(loan, paymentAmount, paymentDate)`: with identical loan, amount ($85) and
payment date, running the engine when `date.today()` is the due date yields a
$0 late-fee portion, while running it ten days later yields a $10 late-fee
portion — the late fee is driven by the wall clock, not the payment date. -/
theorem C7_purity_counterexample :
    (Loan.process_payment_allocation loanA 85 ⟨2024, 1, 15⟩ ⟨2024, 1, 15⟩).map
        (fun a => a.late_fee_payment) = .ok 0 ∧
    (Loan.process_payment_allocation loanA 85 ⟨2024, 1, 15⟩ ⟨2024, 1, 25⟩).map
        (fun a => a.late_fee_payment) = .ok 10 ∧
    (Except.ok (0 : ℚ) : Except AllocError ℚ) ≠ .ok 10 := by
  refine ⟨?_, ?_, by simp⟩
  · have hov : Loan.is_overdue loanA ⟨2024, 1, 15⟩ = false := by decide
    have hfee : Loan.calculate_late_fee loanA ⟨2024, 1, 15⟩ = 0 := by
      simp [Loan.calculate_late_fee, hov]
    have hf : loanA.monthly_interest_fee = some 75 := rfl
    have hb : loanA.current_balance = some 500 := rfl
    have hd : loanA.current_due_date = some ⟨2024, 1, 15⟩ := rfl
    have ho : loanA.original_due_date = some ⟨2024, 1, 15⟩ := rfl
    have hnext :
        loanA.calculate_next_due_date_from_original ⟨2024, 1, 15⟩ 2 = ⟨2024, 3, 15⟩ := by
      decide
    simp only [Loan.process_payment_allocation, hf, hb, hd, ho, hfee]
    norm_num [hnext, Except.map]
  · have hov : Loan.is_overdue loanA ⟨2024, 1, 25⟩ = true := by decide
    have hgr : Loan.is_within_grace_period loanA ⟨2024, 1, 25⟩ = false := by decide
    have hfee : Loan.calculate_late_fee loanA ⟨2024, 1, 25⟩ = 10 := by
      simp [Loan.calculate_late_fee, hov, hgr]
    have hf : loanA.monthly_interest_fee = some 75 := rfl
    have hb : loanA.current_balance = some 500 := rfl
    have hd : loanA.current_due_date = some ⟨2024, 1, 15⟩ := rfl
    have ho : loanA.original_due_date = some ⟨2024, 1, 15⟩ := rfl
    have hnext :
        loanA.calculate_next_due_date_from_original ⟨2024, 1, 25⟩ 2 = ⟨2024, 3, 15⟩ := by
      decide
    simp only [Loan.process_payment_allocation, hf, hb, hd, ho, hfee]
    norm_num [hnext, Except.map]

/-- C7 (amended).  The allocation result is a pure function of
`(loan, paymentAmount, currentDate)`: it is entirely independent of the
payment date (the engine computes an amount-owed local from it that is never
read), and the late-fee portion of every successful allocation equals
`min(amount, calculate_late_fee(loan, today))` when that fee is positive and
0 otherwise — determined by the current (wall-clock) date against
`current_due_date` and the 7-day grace window, not by the payment date. -/
theorem C7_purity_amended (l : Loan) (amt : ℚ) (pd pd' today : PyDate) (a : Allocation)
    (hok : l.process_payment_allocation amt pd today = .ok a) :
    l.process_payment_allocation amt pd' today = .ok a ∧
    a.late_fee_payment =
      (if Loan.calculate_late_fee l today > 0
        then min amt (Loan.calculate_late_fee l today) else 0) := by
  refine ⟨hok, ?_⟩
  cases hf : l.monthly_interest_fee with
  | none =>
    simp only [Loan.process_payment_allocation, hf] at hok
    exact Except.noConfusion hok
  | some f =>
    cases hb : l.current_balance with
    | none =>
      simp only [Loan.process_payment_allocation, hf, hb] at hok
      exact Except.noConfusion hok
    | some b =>
      simp only [Loan.process_payment_allocation, hf, hb] at hok
      split_ifs at hok
      all_goals (injection hok with h; subst h; simp_all)
      all_goals (split_ifs <;> first | rfl | linarith)

/-- The allocation of an $85 payment on `loanA` processed ten days past due
($10 late fee, $75 interest, nothing left for principal). -/
def allocA85 : Allocation :=
  { payment_amount := 85, interest_payment := 75, principal_payment := 0,
    late_fee_payment := 10, overpayment := 0,
    payment_type := "interest_only_renewal", new_balance := 500,
    months_extended := 1, new_due_date := some ⟨2024, 3, 15⟩ }

/-- C7, witness: the amended theorem applied to `loanA`, $85, two different
payment dates, processed on 2024-01-25. -/
theorem C7_purity_witness :
    Loan.process_payment_allocation loanA 85 ⟨2024, 1, 16⟩ ⟨2024, 1, 25⟩ = .ok allocA85 ∧
    allocA85.late_fee_payment =
      (if Loan.calculate_late_fee loanA ⟨2024, 1, 25⟩ > 0
        then min 85 (Loan.calculate_late_fee loanA ⟨2024, 1, 25⟩) else 0) := by
  have hov : Loan.is_overdue loanA ⟨2024, 1, 25⟩ = true := by decide
  have hgr : Loan.is_within_grace_period loanA ⟨2024, 1, 25⟩ = false := by decide
  have hfee : Loan.calculate_late_fee loanA ⟨2024, 1, 25⟩ = 10 := by
    simp [Loan.calculate_late_fee, hov, hgr]
  have hf : loanA.monthly_interest_fee = some 75 := rfl
  have hb : loanA.current_balance = some 500 := rfl
  have hd : loanA.current_due_date = some ⟨2024, 1, 15⟩ := rfl
  have ho : loanA.original_due_date = some ⟨2024, 1, 15⟩ := rfl
  have hnext :
      loanA.calculate_next_due_date_from_original ⟨2024, 1, 25⟩ 2 = ⟨2024, 3, 15⟩ := by
    decide
  have hok : loanA.process_payment_allocation 85 ⟨2024, 1, 15⟩ ⟨2024, 1, 25⟩
      = .ok allocA85 := by
    simp only [Loan.process_payment_allocation, hf, hb, hd, ho, hfee]
    norm_num [hnext, allocA85]
  exact C7_purity_amended loanA 85 ⟨2024, 1, 15⟩ ⟨2024, 1, 16⟩ ⟨2024, 1, 25⟩ allocA85 hok

/-- C8, counterexample.  On 2024-01-25 (ten days past due, $10 late fee
applicable per the late-fee policy evaluated at the target date) the claim
says `amountOwedAsOf` returns 500 + 75 + 10 = 585, but the code returns
575: `calculate_amount_owed_at_date` adds no late-fee term at all. -/
theorem C8_amount_owed_counterexample :
    Loan.calculate_amount_owed_at_date loanA ⟨2024, 1, 25⟩ = 575 ∧
    amountOwedAsOfSpec loanA ⟨2024, 1, 25⟩ = 585 ∧
    (575 : ℚ) ≠ 585 := by
  have hov : Loan.is_overdue loanA ⟨2024, 1, 25⟩ = true := by decide
  have hgr : Loan.is_within_grace_period loanA ⟨2024, 1, 25⟩ = false := by decide
  have hfee : Loan.calculate_late_fee loanA ⟨2024, 1, 25⟩ = 10 := by
    simp [Loan.calculate_late_fee, hov, hgr]
  have hactive : loanA.is_loan_active = true := by decide
  have hd : loanA.current_due_date = some ⟨2024, 1, 15⟩ := rfl
  have hf : loanA.monthly_interest_fee = some 75 := rfl
  have hb : loanA.current_balance = some 500 := rfl
  have hble : PyDate.ble ⟨2024, 1, 15⟩ ⟨2024, 1, 25⟩ = true := by decide
  have hq : qFalsy (some (75 : ℚ)) = false := by
    norm_num [qFalsy]
  refine ⟨?_, ?_, by norm_num⟩
  · simp only [Loan.calculate_amount_owed_at_date, hactive, hd, hf, hb, hq, hble]
    norm_num
  · simp only [amountOwedAsOfSpec, hd, hf, hb, hfee, hble]
    norm_num

/-- C8 (amended).  For every active loan with a due date and a non-zero
monthly interest fee, `calculate_amount_owed_at_date` returns the current
balance, plus the monthly fee when the target date has reached the due date
— and nothing else: no late-fee term is included.  The projection is a pure
function in the embedding (read-only by construction). -/
theorem C8_amount_owed_amended (l : Loan) (target due : PyDate) (fee b : ℚ)
    (ha : l.is_loan_active = true) (hd : l.current_due_date = some due)
    (hf : l.monthly_interest_fee = some fee) (hfz : fee ≠ 0)
    (hb : l.current_balance = some b) :
    l.calculate_amount_owed_at_date target
      = b + (if PyDate.ble due target then fee else 0) := by
  have hq : qFalsy (some fee) = false := by
    simp [qFalsy, hfz]
  simp only [Loan.calculate_amount_owed_at_date, ha, hd, hf, hb, hq]
  simp
  split_ifs <;> simp

/-- C8, witness: the amended theorem applied to `loanA` at 2024-01-25. -/
theorem C8_amount_owed_witness :
    Loan.calculate_amount_owed_at_date loanA ⟨2024, 1, 25⟩
      = 500 + (if PyDate.ble ⟨2024, 1, 15⟩ ⟨2024, 1, 25⟩ then 75 else 0) :=
  C8_amount_owed_amended loanA ⟨2024, 1, 25⟩ ⟨2024, 1, 15⟩ 75 500 (by decide) rfl rfl
    (by norm_num) rfl

/-- C9.  For every loan with a `final_forfeit_date` and every payment dated
strictly after it, `process_payment` rejects the payment whatever the
amount: always with an error (so no updated loan is produced — no state
mutation), and, whenever the loan is active, with precisely the
forfeit-cutoff policy error, before the allocation engine is ever consulted
(the error carries no allocation and is returned even when the allocation
itself would fail differently or succeed). -/
theorem C9_forfeit_cutoff (l : Loan) (amt : ℚ) (pd today f : PyDate)
    (hf : l.final_forfeit_date = some f) (hlt : PyDate.blt f pd = true) :
    (∃ e, process_payment l amt pd today = .error e) ∧
    (l.is_loan_active = true →
      process_payment l amt pd today = .error (.beyondForfeitDate pd f)) := by
  cases ha : l.is_loan_active with
  | false =>
    refine ⟨⟨.loanNotActive, ?_⟩, fun h => Bool.noConfusion h⟩
    simp [process_payment, ha]
  | true =>
    have he : process_payment l amt pd today = .error (.beyondForfeitDate pd f) := by
      simp [process_payment, ha, hf, hlt]
    exact ⟨⟨_, he⟩, fun _ => he⟩

/-- C9, witness: a $1000 payment on `loanA` dated one day after the
2024-04-29 forfeit cutoff is rejected. -/
theorem C9_forfeit_cutoff_witness :
    (∃ e, process_payment loanA 1000 ⟨2024, 4, 30⟩ ⟨2024, 4, 30⟩ = .error e) ∧
    (loanA.is_loan_active = true →
      process_payment loanA 1000 ⟨2024, 4, 30⟩ ⟨2024, 4, 30⟩
        = .error (.beyondForfeitDate ⟨2024, 4, 30⟩ ⟨2024, 4, 29⟩)) :=
  C9_forfeit_cutoff loanA 1000 ⟨2024, 4, 30⟩ ⟨2024, 4, 30⟩ ⟨2024, 4, 29⟩ rfl (by decide)

/-- An active pawn loan whose `monthly_interest_fee` is unset (`None`) — a
state the document model permits — on which every allocation dry-run raises
`ValueError`. -/
def loanC : Loan :=
  mkLoan none (some 500) (some ⟨2024, 1, 15⟩) (some ⟨2024, 1, 15⟩)
    (some ⟨2024, 4, 29⟩)

/-- C10.  `get_payment_scenarios` silently skips any scenario whose dry-run
allocation raises: for `loanC` every dry-run fails with the invalid-state
error, and the call returns an empty list (fewer than three scenarios, with
no error surfaced), while for the healthy `loanA` all three named scenarios
are returned. -/
theorem C10_scenarios_silently_skipped :
    get_payment_scenarios loanC ⟨2024, 1, 15⟩ ⟨2024, 1, 15⟩ = .ok [] ∧
    (∀ (amt : ℚ) (pd : PyDate),
      Loan.process_payment_allocation loanC amt pd ⟨2024, 1, 15⟩
        = .error .invalidLoanState) ∧
    (get_payment_scenarios loanA ⟨2024, 1, 15⟩ ⟨2024, 1, 15⟩).map List.length
      = .ok 3 := by
  have hfC : loanC.monthly_interest_fee = none := rfl
  have hbC : loanC.current_balance = some 500 := rfl
  have hC : ∀ (amt : ℚ) (pd : PyDate),
      Loan.process_payment_allocation loanC amt pd ⟨2024, 1, 15⟩
        = .error .invalidLoanState := by
    intro amt pd
    simp [Loan.process_payment_allocation, hfC, hbC]
  have hactiveC : loanC.is_loan_active = true := by decide
  refine ⟨?_, hC, ?_⟩
  · simp [get_payment_scenarios, hactiveC, hC]
  · have hovA : Loan.is_overdue loanA ⟨2024, 1, 15⟩ = false := by decide
    have hfeeA : Loan.calculate_late_fee loanA ⟨2024, 1, 15⟩ = 0 := by
      simp [Loan.calculate_late_fee, hovA]
    have hfA : loanA.monthly_interest_fee = some 75 := rfl
    have hbA : loanA.current_balance = some 500 := rfl
    have hdA : loanA.current_due_date = some ⟨2024, 1, 15⟩ := rfl
    have hoA : loanA.original_due_date = some ⟨2024, 1, 15⟩ := rfl
    have hnext :
        loanA.calculate_next_due_date_from_original ⟨2024, 1, 15⟩ 2 = ⟨2024, 3, 15⟩ := by
      decide
    have h1 : loanA.process_payment_allocation 75 ⟨2024, 1, 15⟩ ⟨2024, 1, 15⟩ =
        .ok { payment_amount := 75, interest_payment := 75, principal_payment := 0,
              late_fee_payment := 0, overpayment := 0,
              payment_type := "interest_only_renewal", new_balance := 500,
              months_extended := 1, new_due_date := some ⟨2024, 3, 15⟩ } := by
      simp only [Loan.process_payment_allocation, hfA, hbA, hdA, hoA, hfeeA]
      norm_num [hnext]
    have h2 : loanA.process_payment_allocation 325 ⟨2024, 1, 15⟩ ⟨2024, 1, 15⟩ =
        .ok { payment_amount := 325, interest_payment := 75, principal_payment := 250,
              late_fee_payment := 0, overpayment := 0,
              payment_type := "renewal_with_principal", new_balance := 250,
              months_extended := 1, new_due_date := some ⟨2024, 3, 15⟩ } := by
      simp only [Loan.process_payment_allocation, hfA, hbA, hdA, hoA, hfeeA]
      norm_num [hnext]
    have h3 : loanA.process_payment_allocation 575 ⟨2024, 1, 15⟩ ⟨2024, 1, 15⟩ =
        .ok { payment_amount := 575, interest_payment := 75, principal_payment := 500,
              late_fee_payment := 0, overpayment := 0,
              payment_type := "full_redemption", new_balance := 0,
              months_extended := 1, new_due_date := some ⟨2024, 3, 15⟩ } := by
      simp only [Loan.process_payment_allocation, hfA, hbA, hdA, hoA, hfeeA]
      norm_num [hnext]
    have hactiveA : loanA.is_loan_active = true := by decide
    norm_num [get_payment_scenarios, hactiveA, hfA, hbA, hfeeA, h1, h2, h3, Except.map]

end PawnRepo
